import Mathlib

/-!
Shallow embedding of the masternode payment consensus core of LENO
(src/masternode-payments.h, src/masternode-payments.cpp).

Conventions of the embedding:
* C++ `int` heights and amounts become `Int`; `unsigned int` tiers
  ("masternode levels" / "phases") and script identities become `Nat`.
* `std::map` becomes an association list with lookup / replacing insert,
  matching `count`, `operator[]` and `erase`.
* `uint256` hashes: the identity hash of a payment winner
  (`CMasternodePaymentWinner::GetHash`, current-protocol branch, which
  hashes `vinPayee`, `nBlockHeight` and `vinMasternode.prevout`) is
  modelled as the injective encoding of exactly those fields; the
  arithmetic key of the double-vote guard keeps the `% 2^256` wraparound.
* External collaborators (roster `mnodeman`, chain tip, reward schedule
  `GetMasternodePayment`, sporks, signature checks) are fields of an
  `Env` record, as the code only observes their results.
* `int(x * 1.25)` on a nonnegative count truncates toward zero, i.e. it
  is `(5 * x) / 4` in integer division.
-/

namespace LENO

/-- A transaction output reference (`COutPoint`): `hash` is the `uint256`
    of the transaction, `n` the output index. -/
structure COutPoint where
  hash : Nat
  n : Nat
deriving DecidableEq, Repr

/-- A transaction output: script identity and value in satoshis. -/
structure CTxOut where
  scriptPubKey : Nat
  nValue : Int
deriving DecidableEq, Repr

/-- A transaction, reduced to its outputs (the only part the payment
    validator inspects). -/
structure CTransaction where
  vout : List CTxOut
deriving DecidableEq, Repr

/-- One payee entry of a height's tally (`CMasternodePayee`). -/
structure CMasternodePayee where
  scriptPubKey : Nat
  masternodeLevel : Nat
  nVotes : Int
deriving DecidableEq, Repr

/-- The per-height tally (`CMasternodeBlockPayees`). -/
structure CMasternodeBlockPayees where
  nBlockHeight : Int
  vecPayments : List CMasternodePayee
deriving DecidableEq, Repr

/-- A payment-winner vote (`CMasternodePaymentWinner`), current-protocol
    wire form: the payee travels as a collateral reference `vinPayee`.
    The signature bytes are not carried; signature validity is an `Env`
    predicate. -/
structure CMasternodePaymentWinner where
  vinMasternode : COutPoint
  nBlockHeight : Int
  vinPayee : COutPoint
deriving DecidableEq, Repr

/-- The identity-hash key space of a winner: injective encoding of the
    fields hashed by `CMasternodePaymentWinner::GetHash`. -/
abbrev WHash := COutPoint × Int × COutPoint

/-- `CMasternodePaymentWinner::GetHash` (current-protocol branch):
    hashes `vinPayee`, `nBlockHeight`, `vinMasternode.prevout`. -/
def winnerGetHash (w : CMasternodePaymentWinner) : WHash :=
  (w.vinPayee, w.nBlockHeight, w.vinMasternode)

/-- Association-list lookup, modelling `std::map::count` / `find`. -/
def alookup {α β : Type} [DecidableEq α] : List (α × β) → α → Option β
  | [], _ => none
  | (k, v) :: rest, a => if k = a then some v else alookup rest a

/-- Association-list replacing insert, modelling `m[k] = v`. -/
def ainsert {α β : Type} [DecidableEq α] : List (α × β) → α → β → List (α × β)
  | [], a, b => [(a, b)]
  | (k, v) :: rest, a, b =>
      if k = a then (a, b) :: rest else (k, v) :: ainsert rest a b

/-- The whole payment registry (`CMasternodePayments`): vote index,
    height-to-tally index, and the double-vote guard. -/
structure CMasternodePayments where
  mapMasternodePayeeVotes : List (WHash × CMasternodePaymentWinner)
  mapMasternodeBlocks : List (Int × CMasternodeBlockPayees)
  mapMasternodesLastVote : List (Nat × Int)
deriving DecidableEq, Repr

/-- `CMasternodePayments::Clear`: clears the block index and the vote
    index; `mapMasternodesLastVote` is not touched. -/
def Clear (s : CMasternodePayments) : CMasternodePayments :=
  { s with mapMasternodeBlocks := [], mapMasternodePayeeVotes := [] }

/-- External collaborators observed by the payment core. -/
structure Env where
  /-- `chainActive.Tip()->nHeight`. -/
  tipHeight : Int
  /-- `mnodeman.Find(out)->GetPhase(height)`, `0` when the masternode is
      unknown (the code treats phase 0 as "not found"). -/
  getPhase : COutPoint → Int → Nat
  /-- `CMasternodePaymentWinner::GetPayeeScript` resolved via the roster:
      the script paid to the payee's collateral owner. -/
  payeeScript : COutPoint → Nat
  /-- `mnodeman.CountEnabledOnLevel`. -/
  countEnabledOnLevel : Nat → Nat
  /-- `mnodeman.CountEnabled()`. -/
  countEnabled : Nat
  /-- `mnodeman.size()`. -/
  totalSize : Nat
  /-- `mnodeman.stable_size()`. -/
  stableSize : Nat
  /-- `Params().MasternodeCountDrift()`. -/
  countDrift : Nat
  /-- `IsSporkActive(SPORK_8_MASTERNODE_PAYMENT_ENFORCEMENT)`. -/
  sporkEnforcement : Bool
  /-- `Params().getMasternodePhaseCount(height)`. -/
  phaseCount : Int → Nat
  /-- `GetBlockValue(height)`. -/
  blockValue : Int → Int
  /-- `GetMasternodePayment(height, level, reward, driftCount, false)`. -/
  masternodePayment : Int → Nat → Int → Int → Int
  /-- `CMasternodePaymentWinner::IsValid`: roster rank / protocol check. -/
  isValidWinner : CMasternodePaymentWinner → Bool
  /-- `CMasternodePaymentWinner::SignatureValid`. -/
  signatureValid : CMasternodePaymentWinner → Bool
  /-- `GetBlockHash(hash, height)` succeeds for this height. -/
  hasBlockHash : Int → Bool

/-- `CMasternodeBlockPayees::AddPayee(payeeIn, masternodeLevel,
    nIncrement)`: bump the first entry matching script and level, else
    append a fresh entry. -/
def addPayee : List CMasternodePayee → Nat → Nat → Int → List CMasternodePayee
  | [], script, lvl, inc => [⟨script, lvl, inc⟩]
  | p :: rest, script, lvl, inc =>
      if p.scriptPubKey = script ∧ p.masternodeLevel = lvl then
        { p with nVotes := p.nVotes + inc } :: rest
      else
        p :: addPayee rest script lvl inc

/-- `CMasternodeBlockPayees::GetPayee(payee, masternodeLevel)`: the
    leading payee of a level — strictly highest vote count, earlier
    entry wins ties. `none` when the level has no entry. -/
def getPayee (pays : List CMasternodePayee) (lvl : Nat) : Option Nat :=
  (pays.foldl
    (fun (acc : Int × Option Nat) p =>
      if p.masternodeLevel = lvl ∧ p.nVotes > acc.1 then
        (p.nVotes, some p.scriptPubKey)
      else acc)
    (-1, none)).2

/-- The `nMaxSignatures` accumulation inside
    `CMasternodeBlockPayees::IsTransactionValid`: fold over `vecPayments`
    keeping the vote count of payees on the given level. -/
def nMaxSignaturesFor (pays : List CMasternodePayee) (lvl : Nat) : Int :=
  pays.foldl
    (fun acc p =>
      if p.nVotes ≥ acc ∧ p.masternodeLevel = lvl then p.nVotes else acc)
    0

/-- The `nMasternode_Drift_Count` computation: stable size under payment
    enforcement, total size otherwise, plus the configured drift. -/
def masternodeDriftCount (env : Env) : Int :=
  if env.sporkEnforcement then (env.stableSize : Int) + (env.countDrift : Int)
  else (env.totalSize : Int) + (env.countDrift : Int)

/-- `MNPAYMENTS_SIGNATURES_REQUIRED`. -/
def MNPAYMENTS_SIGNATURES_REQUIRED : Int := 6

/-- The required payment for one level of a block, as computed inside
    `CMasternodeBlockPayees::IsTransactionValid`. -/
def requiredPaymentFor (env : Env) (height : Int) (lvl : Nat) : Int :=
  env.masternodePayment height lvl (env.blockValue height) (masternodeDriftCount env)

/-- The inner payee/output scan of `IsTransactionValid` for one level:
    some payee on this level with at least 6 votes is paid at least
    `required` by some output of the transaction. -/
def hasLevelPayment (tx : CTransaction) (pays : List CMasternodePayee)
    (lvl : Nat) (required : Int) : Bool :=
  pays.any fun p =>
    decide (p.masternodeLevel = lvl) &&
    decide (p.nVotes ≥ MNPAYMENTS_SIGNATURES_REQUIRED) &&
    tx.vout.any fun o =>
      decide (p.scriptPubKey = o.scriptPubKey) && decide (o.nValue ≥ required)

/-- `CMasternodeBlockPayees::IsTransactionValid`: for every level from 1
    to the active phase count, either no payee of the level reaches 6
    votes (the level is skipped) or the transaction pays some 6-vote
    payee of the level at least the required amount. -/
def blockPayeesIsTransactionValid (env : Env) (b : CMasternodeBlockPayees)
    (tx : CTransaction) : Bool :=
  (List.range' 1 (env.phaseCount b.nBlockHeight)).all fun lvl =>
    if nMaxSignaturesFor b.vecPayments lvl < MNPAYMENTS_SIGNATURES_REQUIRED then
      true
    else
      hasLevelPayment tx b.vecPayments lvl (requiredPaymentFor env b.nBlockHeight lvl)

/-- `CMasternodePayments::IsTransactionValid`: defer to the height's
    tally when one exists, trivially true otherwise. -/
def paymentsIsTransactionValid (env : Env) (s : CMasternodePayments)
    (tx : CTransaction) (nBlockHeight : Int) : Bool :=
  match alookup s.mapMasternodeBlocks nBlockHeight with
  | some b => blockPayeesIsTransactionValid env b tx
  | none => true

/-- The `uint256` key of the double-vote guard in
    `CMasternodePayments::CanVote(winner)`:
    `((prevout.hash + prevout.n) << 4) + voteForPhase`, with `uint256`
    wraparound. -/
def canVoteKey (out : COutPoint) (voteForPhase : Nat) : Nat :=
  ((out.hash + out.n) * 16 + voteForPhase) % 2 ^ 256

/-- `CMasternodePayments::CanVote(winner)`: look the voter's
    `(collateral, payee phase)` key up in `mapMasternodesLastVote`;
    reject when the recorded height equals this vote's height, otherwise
    record this height and accept. -/
def CanVote (env : Env) (s : CMasternodePayments)
    (w : CMasternodePaymentWinner) : CMasternodePayments × Bool :=
  let voteForPhase := env.getPhase w.vinPayee w.nBlockHeight
  let key := canVoteKey w.vinMasternode voteForPhase
  match alookup s.mapMasternodesLastVote key with
  | some h =>
      if h = w.nBlockHeight then (s, false)
      else
        ({ s with mapMasternodesLastVote :=
            ainsert s.mapMasternodesLastVote key w.nBlockHeight }, true)
  | none =>
      ({ s with mapMasternodesLastVote :=
          ainsert s.mapMasternodesLastVote key w.nBlockHeight }, true)

/-- `std::map::operator[]` followed by a mutation: update the entry when
    present, else default-construct (`CMasternodeBlockPayees()`, height 0)
    and update that. -/
def bracketUpdate (m : List (Int × CMasternodeBlockPayees)) (h : Int)
    (f : CMasternodeBlockPayees → CMasternodeBlockPayees) :
    List (Int × CMasternodeBlockPayees) :=
  match alookup m h with
  | some b => ainsert m h (f b)
  | none => ainsert m h (f ⟨0, []⟩)

/-- `CMasternodePayments::AddWinningMasternode`: require a known block
    hash 100 blocks below the vote, reject exact duplicates by identity
    hash, otherwise insert the vote, ensure the height's tally exists and
    record one vote for the resolved payee at its phase. -/
def AddWinningMasternode (env : Env) (s : CMasternodePayments)
    (w : CMasternodePaymentWinner) : CMasternodePayments × Bool :=
  if ¬ env.hasBlockHash (w.nBlockHeight - 100) then (s, false)
  else if (alookup s.mapMasternodePayeeVotes (winnerGetHash w)).isSome then
    (s, false)
  else
    let votes := ainsert s.mapMasternodePayeeVotes (winnerGetHash w) w
    let blocks0 :=
      if (alookup s.mapMasternodeBlocks w.nBlockHeight).isSome then
        s.mapMasternodeBlocks
      else
        ainsert s.mapMasternodeBlocks w.nBlockHeight ⟨w.nBlockHeight, []⟩
    let blocks := bracketUpdate blocks0 w.nBlockHeight fun b =>
      { b with vecPayments :=
          (addPayee b.vecPayments (env.payeeScript w.vinPayee)
            (env.getPhase w.vinPayee w.nBlockHeight) 1) }
    ({ s with mapMasternodePayeeVotes := votes, mapMasternodeBlocks := blocks },
     true)

/-- `int(mnodeman.CountEnabledOnLevel(payeePhase) * 1.25)`: truncation
    toward zero of a nonnegative value, i.e. `floor(5 * count / 4)`. -/
def windowFloor (env : Env) (payeePhase : Nat) : Int :=
  (((5 * env.countEnabledOnLevel payeePhase) / 4 : Nat) : Int)

/-- Why an inbound `mnw` vote was dropped, one constructor per early
    return of the `mnw` branch of
    `CMasternodePayments::ProcessMessageMasternodePayments`. -/
inductive RejectReason where
  | noVoterPhase
  | noPayeePhase
  | alreadySeen
  | outOfWindow
  | invalidWinner
  | alreadyVoted
  | badSignature
  | addFailed
deriving DecidableEq, Repr

/-- Outcome of processing one inbound `mnw` vote: accepted (relayed and
    marked seen) or rejected at some pipeline stage. -/
inductive VoteOutcome where
  | accepted
  | rejected (r : RejectReason)
deriving DecidableEq, Repr

/-- The `mnw` branch of
    `CMasternodePayments::ProcessMessageMasternodePayments`, after the
    peer-version gate: phase resolution of voter and payee, duplicate
    identity-hash check, height-window check with lower bound
    `tip - int(CountEnabledOnLevel(payeePhase) * 1.25)` and upper bound
    `tip + 20`, winner validity, double-vote guard, signature check, and
    finally `AddWinningMasternode`. -/
def processVote (env : Env) (s : CMasternodePayments)
    (w : CMasternodePaymentWinner) : CMasternodePayments × VoteOutcome :=
  if env.getPhase w.vinMasternode w.nBlockHeight = 0 then
    (s, .rejected .noVoterPhase)
  else
    let payeePhase := env.getPhase w.vinPayee w.nBlockHeight
    if payeePhase = 0 then (s, .rejected .noPayeePhase)
    else if (alookup s.mapMasternodePayeeVotes (winnerGetHash w)).isSome then
      (s, .rejected .alreadySeen)
    else
      let nFirstBlock : Int := env.tipHeight - windowFloor env payeePhase
      if w.nBlockHeight < nFirstBlock ∨ w.nBlockHeight > env.tipHeight + 20 then
        (s, .rejected .outOfWindow)
      else if ¬ env.isValidWinner w then (s, .rejected .invalidWinner)
      else
        let r := CanVote env s w
        if ¬ r.2 then (r.1, .rejected .alreadyVoted)
        else if ¬ env.signatureValid w then (r.1, .rejected .badSignature)
        else
          let a := AddWinningMasternode env r.1 w
          if a.2 then (a.1, .accepted) else (a.1, .rejected .addFailed)

/-- The retention limit of `CMasternodePayments::CleanPaymentList`:
    `max(int(mnodeman.size() * 1.25), 1000)`. -/
def cleanLimit (env : Env) : Int :=
  max (((5 * env.totalSize) / 4 : Nat) : Int) 1000

/-- `CMasternodePayments::CleanPaymentList`: drop every vote whose
    height is more than the retention limit below the tip, and drop the
    tally of every height that had such a vote removed. -/
def CleanPaymentList (env : Env) (s : CMasternodePayments) :
    CMasternodePayments :=
  let nLimit := cleanLimit env
  let removed := s.mapMasternodePayeeVotes.filter fun kv =>
    decide (env.tipHeight - kv.2.nBlockHeight > nLimit)
  { s with
    mapMasternodePayeeVotes := s.mapMasternodePayeeVotes.filter fun kv =>
      decide (env.tipHeight - kv.2.nBlockHeight ≤ nLimit),
    mapMasternodeBlocks := s.mapMasternodeBlocks.filter fun hb =>
      ! removed.any fun kv => decide (kv.2.nBlockHeight = hb.1) }

/-- `CMasternodePayments::Sync`: clamp the requested count to
    `int(CountEnabled() * 1.25)`, announce one inventory item per ledger
    vote with height in `[tip - clamped, tip + 20]`, and report the
    number announced in the trailing `ssc` message. The result is the
    announced identity hashes in ledger order paired with that count. -/
def Sync (env : Env) (s : CMasternodePayments) (nCountNeeded : Int) :
    List WHash × Nat :=
  let nCount : Int := (((5 * env.countEnabled) / 4 : Nat) : Int)
  let needed := if nCountNeeded > nCount then nCount else nCountNeeded
  let inv := s.mapMasternodePayeeVotes.filter fun kv =>
    decide (kv.2.nBlockHeight ≥ env.tipHeight - needed) &&
    decide (kv.2.nBlockHeight ≤ env.tipHeight + 20)
  (inv.map Prod.fst, inv.length)

/-- `CMasternodePaymentDB::ReadResult`. -/
inductive ReadResult where
  | Ok
  | FileError
  | HashReadError
  | IncorrectHash
  | IncorrectMagicMessage
  | IncorrectMagicNumber
  | IncorrectFormat
deriving DecidableEq, Repr

/-- The observable content of an `mnpayments.dat` snapshot file as the
    reader sees it: whether the file opens, whether the trailing
    checksum is readable, the stored checksum, the hash recomputed over
    the data part, the two magic headers, and the payload
    (`none` when deserializing it throws). -/
structure SnapshotFile where
  fileOpens : Bool
  hashReadable : Bool
  hashIn : Nat
  dataHash : Nat
  magicMessage : String
  networkMagic : List Nat
  payload : Option CMasternodePayments

/-- The magic message written by `CMasternodePaymentDB`. -/
def expectedMagicMessage : String := "MasternodePayments"

/-- `CMasternodePaymentDB::Read` (the non-dry-run cleanup pass is
    outside the checked result): file open, checksum read, checksum
    compare, magic-message compare, network-magic compare, payload
    deserialization; the `IncorrectFormat` catch path calls
    `objToLoad.Clear()`. -/
def dbRead (netMagic : List Nat) (f : SnapshotFile)
    (objToLoad : CMasternodePayments) : ReadResult × CMasternodePayments :=
  if ¬ f.fileOpens then (.FileError, objToLoad)
  else if ¬ f.hashReadable then (.HashReadError, objToLoad)
  else if f.hashIn ≠ f.dataHash then (.IncorrectHash, objToLoad)
  else if f.magicMessage ≠ expectedMagicMessage then
    (.IncorrectMagicMessage, objToLoad)
  else if f.networkMagic ≠ netMagic then (.IncorrectMagicNumber, objToLoad)
  else
    match f.payload with
    | none => (.IncorrectFormat, Clear objToLoad)
    | some p => (.Ok, p)

/-- Modelled from the spec: the spec's clamp `ceil(1.25 × n)` on a
    nonnegative roster count, used only to compare the spec's stated
    sync window against the one the code computes. -/
def ceilFiveQuarters (n : Nat) : Nat := (5 * n + 3) / 4

/-! ### Concrete fixtures used by witnesses and counterexamples -/

/-- A concrete environment: tip 1000, every collateral resolves to
    phase 1, payee scripts keyed by the collateral transaction hash, all
    external checks passing. -/
def envW : Env where
  tipHeight := 1000
  getPhase := fun _ _ => 1
  payeeScript := fun o => o.hash
  countEnabledOnLevel := fun _ => 0
  countEnabled := 10
  totalSize := 100
  stableSize := 100
  countDrift := 0
  sporkEnforcement := false
  phaseCount := fun _ => 1
  blockValue := fun _ => 100
  masternodePayment := fun _ _ _ _ => 50
  isValidWinner := fun _ => true
  signatureValid := fun _ => true
  hasBlockHash := fun _ => true

/-- The empty payment registry. -/
def s0W : CMasternodePayments := ⟨[], [], []⟩

/-- The voting masternode's collateral used in concrete runs. -/
def voterOW : COutPoint := ⟨1, 0⟩

/-- Vote by `voterOW` for payee collateral 10 at height 1000. -/
def v1W : CMasternodePaymentWinner := ⟨voterOW, 1000, ⟨10, 0⟩⟩

/-- Vote by `voterOW` for payee collateral 11 at height 1001. -/
def v2W : CMasternodePaymentWinner := ⟨voterOW, 1001, ⟨11, 0⟩⟩

/-- Vote by `voterOW` for payee collateral 12, again at height 1000. -/
def v3W : CMasternodePaymentWinner := ⟨voterOW, 1000, ⟨12, 0⟩⟩

/-- A tally at height 995 with payee 1 leading at 7 votes and payee 2
    behind at 6 votes, both on level 1. -/
def bC1W : CMasternodeBlockPayees := ⟨995, [⟨1, 1, 7⟩, ⟨2, 1, 6⟩]⟩

/-- A transaction paying 50 to script 2 only. -/
def txC1W : CTransaction := ⟨[⟨2, 50⟩]⟩

/-- A tally at height 995 whose only payee has 3 votes. -/
def bC6W : CMasternodeBlockPayees := ⟨995, [⟨1, 1, 3⟩]⟩

/-- Environment at tip 2000 (otherwise as `envW`). -/
def env3W : Env := { envW with tipHeight := 2000 }

/-- A recorded vote at height 1875. -/
def w1875W : CMasternodePaymentWinner := ⟨⟨5, 0⟩, 1875, ⟨6, 0⟩⟩

/-- A recorded vote at height 999. -/
def w999W : CMasternodePaymentWinner := ⟨⟨5, 0⟩, 999, ⟨6, 0⟩⟩

/-- A registry holding the two votes above together with their tallies. -/
def s3W : CMasternodePayments :=
  ⟨[(winnerGetHash w1875W, w1875W), (winnerGetHash w999W, w999W)],
   [(1875, ⟨1875, []⟩), (999, ⟨999, []⟩)], []⟩

/-- A recorded vote at height 987. -/
def w987W : CMasternodePaymentWinner := ⟨⟨5, 0⟩, 987, ⟨6, 0⟩⟩

/-- A registry holding only the vote at height 987. -/
def s9W : CMasternodePayments := ⟨[(winnerGetHash w987W, w987W)], [], []⟩

/-- Environment with 8 enabled masternodes on every level, so the
    admission window floor is `int(8 * 1.25) = 10`. -/
def env4W : Env := { envW with countEnabledOnLevel := fun _ => 8 }

/-- A snapshot file whose trailing checksum disagrees with the hash
    recomputed over the data. -/
def fBadW : SnapshotFile :=
  ⟨true, true, 1, 2, expectedMagicMessage, [0, 0, 0, 0], some s0W⟩

/-! ### Helper lemmas -/

theorem alookup_ainsert_self {α β : Type} [DecidableEq α]
    (m : List (α × β)) (k : α) (v : β) :
    alookup (ainsert m k v) k = some v := by
  induction m with
  | nil => simp [ainsert, alookup]
  | cons kv rest ih =>
      obtain ⟨a, b⟩ := kv
      by_cases h : a = k
      · simp [ainsert, alookup, h]
      · simp [ainsert, alookup, h, ih]

theorem canVote_fst_votes (env : Env) (s : CMasternodePayments)
    (w : CMasternodePaymentWinner) :
    (CanVote env s w).1.mapMasternodePayeeVotes = s.mapMasternodePayeeVotes := by
  unfold CanVote
  cases hl : alookup s.mapMasternodesLastVote
      (canVoteKey w.vinMasternode (env.getPhase w.vinPayee w.nBlockHeight)) with
  | none => simp [hl]
  | some h => by_cases hh : h = w.nBlockHeight <;> simp [hl, hh]

theorem nMaxSignatures_lt_of_all_lt (pays : List CMasternodePayee) (lvl : Nat)
    (acc : Int) (hacc : acc < MNPAYMENTS_SIGNATURES_REQUIRED)
    (hall : ∀ p ∈ pays, p.masternodeLevel = lvl →
      p.nVotes < MNPAYMENTS_SIGNATURES_REQUIRED) :
    pays.foldl
      (fun a p => if p.nVotes ≥ a ∧ p.masternodeLevel = lvl then p.nVotes else a)
      acc < MNPAYMENTS_SIGNATURES_REQUIRED := by
  induction pays generalizing acc with
  | nil => simpa using hacc
  | cons p rest ih =>
      simp only [List.foldl_cons]
      apply ih
      · by_cases hcond : p.nVotes ≥ acc ∧ p.masternodeLevel = lvl
        · rw [if_pos hcond]
          exact hall p (by simp) hcond.2
        · rwa [if_neg hcond]
      · intro q hq hq2
        exact hall q (by simp [hq]) hq2

/-! ### Claim theorems -/

/-- C7: for every candidate transaction and height, if the ledger holds
    no tally at all for that height, `CMasternodePayments::IsTransactionValid`
    returns true. -/
theorem C7_no_tally_validates (env : Env) (s : CMasternodePayments)
    (tx : CTransaction) (h : Int)
    (hnone : alookup s.mapMasternodeBlocks h = none) :
    paymentsIsTransactionValid env s tx h = true := by
  unfold paymentsIsTransactionValid
  rw [hnone]

/-- Witness for C7 on the empty registry at height 5. -/
theorem C7_no_tally_validates_w :
    paymentsIsTransactionValid envW s0W ⟨[]⟩ 5 = true :=
  C7_no_tally_validates envW s0W ⟨[]⟩ 5 rfl

/-- C10: `Clear` empties the vote index and the height-to-tally index
    but leaves `mapMasternodesLastVote` unchanged, so a vote that the
    double-vote guard rejected before the reset is still rejected after
    it. -/
theorem C10_clear_keeps_guard (env : Env) (s : CMasternodePayments)
    (w : CMasternodePaymentWinner) :
    (Clear s).mapMasternodesLastVote = s.mapMasternodesLastVote ∧
    (Clear s).mapMasternodePayeeVotes = [] ∧
    (Clear s).mapMasternodeBlocks = [] ∧
    ((CanVote env s w).2 = false → (CanVote env (Clear s) w).2 = false) := by
  refine ⟨rfl, rfl, rfl, ?_⟩
  intro hrej
  unfold CanVote at hrej ⊢
  cases hl : alookup s.mapMasternodesLastVote
      (canVoteKey w.vinMasternode (env.getPhase w.vinPayee w.nBlockHeight)) with
  | none => simp [hl] at hrej
  | some h =>
      by_cases hh : h = w.nBlockHeight
      · simp [Clear, hl, hh]
      · simp [hl, hh] at hrej

/-- Witness for C10: voter collateral `(1, 0)` with phase-1 key 17 has
    already voted height 1000; the same vote is rejected both before and
    after `Clear`. -/
theorem C10_clear_keeps_guard_w :
    (CanVote envW ⟨[], [], [(17, 1000)]⟩ v1W).2 = false ∧
    (CanVote envW (Clear ⟨[], [], [(17, 1000)]⟩) v1W).2 = false :=
  ⟨by decide,
   (C10_clear_keeps_guard envW ⟨[], [], [(17, 1000)]⟩ v1W).2.2.2 (by decide)⟩

/-- C6: if no payee of a level in the tally reaches 6 votes, the level
    imposes no constraint in `CMasternodeBlockPayees::IsTransactionValid`
    (its check holds regardless of the transaction), and if this is true
    of every payee then the whole validation accepts any transaction. -/
theorem C6_no_quorum_unconstrained (env : Env) (b : CMasternodeBlockPayees)
    (lvl : Nat)
    (hlvl : ∀ p ∈ b.vecPayments, p.masternodeLevel = lvl →
      p.nVotes < MNPAYMENTS_SIGNATURES_REQUIRED) :
    (∀ tx : CTransaction,
      (if nMaxSignaturesFor b.vecPayments lvl < MNPAYMENTS_SIGNATURES_REQUIRED
        then true
        else hasLevelPayment tx b.vecPayments lvl
          (requiredPaymentFor env b.nBlockHeight lvl)) = true) ∧
    ((∀ p ∈ b.vecPayments, p.nVotes < MNPAYMENTS_SIGNATURES_REQUIRED) →
      ∀ tx : CTransaction, blockPayeesIsTransactionValid env b tx = true) := by
  constructor
  · intro tx
    rw [if_pos]
    exact nMaxSignatures_lt_of_all_lt b.vecPayments lvl 0 (by decide) hlvl
  · intro hall tx
    unfold blockPayeesIsTransactionValid
    rw [List.all_eq_true]
    intro l _
    rw [if_pos]
    exact nMaxSignatures_lt_of_all_lt b.vecPayments l 0 (by decide)
      (fun p hp _ => hall p hp)

/-- Witness for C6, Scenario C: a tally whose only payee has 3 votes
    validates a transaction that pays nobody. -/
theorem C6_no_quorum_unconstrained_w :
    blockPayeesIsTransactionValid envW bC6W ⟨[]⟩ = true :=
  (C6_no_quorum_unconstrained envW bC6W 1 (by decide)).2 (by decide) ⟨[]⟩

/-- C8: a second `AddWinningMasternode` with the identical vote is
    rejected on the duplicate identity-hash check and leaves the whole
    registry (vote index, tallies, payee counts) unchanged. -/
theorem C8_add_duplicate_noop (env : Env) (s s1 : CMasternodePayments)
    (w : CMasternodePaymentWinner)
    (hfirst : AddWinningMasternode env s w = (s1, true)) :
    AddWinningMasternode env s1 w = (s1, false) := by
  have hbh : env.hasBlockHash (w.nBlockHeight - 100) = true := by
    by_contra hn
    unfold AddWinningMasternode at hfirst
    rw [if_pos (by exact hn)] at hfirst
    simp at hfirst
  have hvotes : s1.mapMasternodePayeeVotes =
      ainsert s.mapMasternodePayeeVotes (winnerGetHash w) w := by
    unfold AddWinningMasternode at hfirst
    rw [if_neg (by simp [hbh])] at hfirst
    by_cases hdup :
        (alookup s.mapMasternodePayeeVotes (winnerGetHash w)).isSome = true
    · rw [if_pos hdup] at hfirst
      simp at hfirst
    · rw [if_neg hdup] at hfirst
      simp only [Prod.mk.injEq] at hfirst
      rw [← hfirst.1]
  unfold AddWinningMasternode
  rw [if_neg (by simp [hbh])]
  rw [if_pos (by rw [hvotes, alookup_ainsert_self]; rfl)]

/-- Witness for C8: adding `v1W` to the empty registry succeeds, and the
    identical second add returns false with the registry unchanged. -/
theorem C8_add_duplicate_noop_w :
    AddWinningMasternode envW (AddWinningMasternode envW s0W v1W).1 v1W =
      ((AddWinningMasternode envW s0W v1W).1, false) :=
  C8_add_duplicate_noop envW s0W _ v1W (by decide)

/-- C1 counterexample: a tally at height 995 where payee 1 leads level 1
    with 7 votes and payee 2 trails with 6; a transaction paying only
    payee 2 the required 50 passes
    `CMasternodeBlockPayees::IsTransactionValid` although it contains no
    output at all to the leading payee. -/
theorem C1_leading_payee_cex :
    blockPayeesIsTransactionValid envW bC1W txC1W = true ∧
    getPayee bC1W.vecPayments 1 = some 1 ∧
    (∀ o ∈ txC1W.vout, o.scriptPubKey ≠ 1) ∧
    requiredPaymentFor envW bC1W.nBlockHeight 1 = 50 := by
  decide

/-- C1 amended: `CMasternodeBlockPayees::IsTransactionValid` accepts
    exactly when, for every active level on which some payee reaches 6
    votes, the transaction contains an output paying at least the
    required amount to some payee of that level with at least 6 votes
    (not necessarily the leading payee); the overall result is the
    conjunction over active levels. Paying every qualifying payee less
    than the required amount fails the level. -/
theorem C1_validate_payment_iff (env : Env) (b : CMasternodeBlockPayees)
    (tx : CTransaction) :
    blockPayeesIsTransactionValid env b tx = true ↔
      ∀ lvl ∈ List.range' 1 (env.phaseCount b.nBlockHeight),
        MNPAYMENTS_SIGNATURES_REQUIRED ≤ nMaxSignaturesFor b.vecPayments lvl →
        ∃ p ∈ b.vecPayments, p.masternodeLevel = lvl ∧
          MNPAYMENTS_SIGNATURES_REQUIRED ≤ p.nVotes ∧
          ∃ o ∈ tx.vout, o.scriptPubKey = p.scriptPubKey ∧
            requiredPaymentFor env b.nBlockHeight lvl ≤ o.nValue := by
  unfold blockPayeesIsTransactionValid
  rw [List.all_eq_true]
  constructor
  · intro h lvl hmem hq
    have h2 := h lvl hmem
    rw [if_neg (not_lt.mpr hq)] at h2
    simp only [hasLevelPayment, List.any_eq_true, Bool.and_eq_true,
      decide_eq_true_eq, ge_iff_le] at h2
    obtain ⟨p, hp, ⟨hplvl, hpv⟩, o, ho, hos, hov⟩ := h2
    exact ⟨p, hp, hplvl, hpv, o, ho, hos.symm, hov⟩
  · intro h lvl hmem
    by_cases hq : nMaxSignaturesFor b.vecPayments lvl <
        MNPAYMENTS_SIGNATURES_REQUIRED
    · rw [if_pos hq]
    · rw [if_neg hq]
      obtain ⟨p, hp, hplvl, hpv, o, ho, hos, hov⟩ :=
        h lvl hmem (not_lt.mp hq)
      simp only [hasLevelPayment, List.any_eq_true, Bool.and_eq_true,
        decide_eq_true_eq, ge_iff_le]
      exact ⟨p, hp, ⟨hplvl, hpv⟩, o, ho, hos.symm, hov⟩

/-- C3 counterexample: at tip 2000 with roster size 100 the retention
    limit is `max(int(100 * 1.25), 1000) = 1000`, not 125, so a vote at
    height 1875 survives `CleanPaymentList` (the claim says every vote
    at height ≤ 1875 is removed); a vote at height 999 is removed. -/
theorem C3_retention_cex :
    env3W.tipHeight = 2000 ∧ env3W.totalSize = 100 ∧
    cleanLimit env3W = 1000 ∧
    (winnerGetHash w1875W, w1875W) ∈
      (CleanPaymentList env3W s3W).mapMasternodePayeeVotes ∧
    ¬ (winnerGetHash w999W, w999W) ∈
      (CleanPaymentList env3W s3W).mapMasternodePayeeVotes := by
  decide

/-- C3 amended: `CleanPaymentList` keeps exactly the votes whose height
    is within `retention = max(int(roster_size * 1.25), 1000)` of the
    tip and removes the others; at tip 2000 with roster size 100 the
    retention is the floor value 1000, so votes at height ≤ 999 are
    removed and votes at height ≥ 1000 (such as 1875 and 1876) are
    kept. -/
theorem C3_cleanup_retention (env : Env) (s : CMasternodePayments)
    (kv : WHash × CMasternodePaymentWinner) :
    kv ∈ (CleanPaymentList env s).mapMasternodePayeeVotes ↔
      kv ∈ s.mapMasternodePayeeVotes ∧
        env.tipHeight - kv.2.nBlockHeight ≤
          max (((5 * env.totalSize) / 4 : Nat) : Int) 1000 := by
  unfold CleanPaymentList cleanLimit
  simp [List.mem_filter]

/-- C9 counterexample: with 10 enabled masternodes a requested count of
    20 is clamped to `int(10 * 1.25) = 12`, not `ceil(12.5) = 13`: the
    ledger vote at height 987 lies inside the spec's window
    `[1000 - min(20, 13), 1020]` but `Sync` announces nothing, and the
    trailing count is 0. -/
theorem C9_sync_clamp_cex :
    (Sync envW s9W 20).1 = [] ∧ (Sync envW s9W 20).2 = 0 ∧
    (winnerGetHash w987W, w987W) ∈ s9W.mapMasternodePayeeVotes ∧
    envW.tipHeight - min 20 ((ceilFiveQuarters envW.countEnabled : Nat) : Int)
      ≤ w987W.nBlockHeight ∧
    w987W.nBlockHeight ≤ envW.tipHeight + 20 := by
  decide

/-- C9 amended: the responder clamps the requested count to
    `min(requested, int(enabled_roster_size * 1.25))` — truncation, not
    ceiling — then announces one inventory item per ledger vote with
    height in `[tip - clamped, tip + 20]` and reports the number of
    announced items in the trailing control message. -/
theorem C9_sync_window (env : Env) (s : CMasternodePayments) (c : Int) :
    Sync env s c =
      ((s.mapMasternodePayeeVotes.filter fun kv =>
          decide (kv.2.nBlockHeight ≥
            env.tipHeight - min c (((5 * env.countEnabled) / 4 : Nat) : Int)) &&
          decide (kv.2.nBlockHeight ≤ env.tipHeight + 20)).map Prod.fst,
       (s.mapMasternodePayeeVotes.filter fun kv =>
          decide (kv.2.nBlockHeight ≥
            env.tipHeight - min c (((5 * env.countEnabled) / 4 : Nat) : Int)) &&
          decide (kv.2.nBlockHeight ≤ env.tipHeight + 20)).length) := by
  unfold Sync
  have hmin : (if c > (((5 * env.countEnabled) / 4 : Nat) : Int)
      then (((5 * env.countEnabled) / 4 : Nat) : Int) else c) =
      min c (((5 * env.countEnabled) / 4 : Nat) : Int) := by
    rw [min_def]
    split <;> split <;> omega
  dsimp only
  rw [hmin]

/-- C5: snapshot reading checks, in order, the trailing checksum
    (mismatch: `IncorrectHash`, returning before touching the payload,
    so an initially empty ledger stays empty), the magic message, the
    network magic and finally the payload, each failure with its own
    error; the `IncorrectFormat` path resets the ledger's vote and block
    indexes to empty. -/
theorem C5_db_read_order (nm : List Nat) (f : SnapshotFile)
    (st : CMasternodePayments)
    (hopen : f.fileOpens = true) (hread : f.hashReadable = true) :
    (f.hashIn ≠ f.dataHash → dbRead nm f st = (.IncorrectHash, st)) ∧
    ((dbRead nm f st).1 = .IncorrectMagicMessage →
      f.hashIn = f.dataHash ∧ f.magicMessage ≠ expectedMagicMessage) ∧
    ((dbRead nm f st).1 = .IncorrectMagicNumber →
      f.hashIn = f.dataHash ∧ f.magicMessage = expectedMagicMessage ∧
      f.networkMagic ≠ nm) ∧
    ((dbRead nm f st).1 = .IncorrectFormat →
      f.hashIn = f.dataHash ∧ f.magicMessage = expectedMagicMessage ∧
      f.networkMagic = nm ∧ f.payload = none ∧
      (dbRead nm f st).2.mapMasternodePayeeVotes = [] ∧
      (dbRead nm f st).2.mapMasternodeBlocks = []) := by
  unfold dbRead
  rw [if_neg (by simp [hopen]), if_neg (by simp [hread])]
  by_cases h1 : f.hashIn = f.dataHash
  · rw [if_neg (by simp [h1])]
    by_cases h2 : f.magicMessage = expectedMagicMessage
    · rw [if_neg (by simp [h2])]
      by_cases h3 : f.networkMagic = nm
      · rw [if_neg (by simp [h3])]
        cases hp : f.payload with
        | none => simp [h1, h2, h3, hp, Clear]
        | some p => simp [h1, h2, h3, hp]
      · rw [if_pos h3]
        simp [h1, h2, h3]
    · rw [if_pos h2]
      simp [h1, h2]
  · rw [if_pos h1]
    simp [h1]

/-- Witness for C5: a snapshot whose stored checksum 1 disagrees with
    the recomputed hash 2 reads as `IncorrectHash` and leaves the empty
    ledger empty. -/
theorem C5_db_read_order_w :
    dbRead [0, 0, 0, 0] fBadW s0W = (.IncorrectHash, s0W) :=
  (C5_db_read_order [0, 0, 0, 0] fBadW s0W rfl rfl).1 (by decide)

/-- C2 counterexample: the voter of `v1W` gets the vote `v1W` for
    height 1000 accepted, then `v2W` for height 1001, then `v3W` — same
    voter, same phase, same height 1000, different payee — is accepted
    again, so the final accepted count for the key
    (voter, tier 1, height 1000) is 2. -/
theorem C2_double_vote_cex :
    (processVote envW s0W v1W).2 = .accepted ∧
    (processVote envW (processVote envW s0W v1W).1 v2W).2 = .accepted ∧
    (processVote envW
        (processVote envW (processVote envW s0W v1W).1 v2W).1 v3W).2
      = .accepted ∧
    v3W.vinMasternode = v1W.vinMasternode ∧
    v3W.nBlockHeight = v1W.nBlockHeight ∧
    envW.getPhase v3W.vinPayee v3W.nBlockHeight =
      envW.getPhase v1W.vinPayee v1W.nBlockHeight ∧
    v3W.vinPayee ≠ v1W.vinPayee := by
  decide

/-- C2 amended: the double-vote guard stores only the last voted height
    per (voter collateral, tier) key, so an immediately repeated vote
    for the same key and the same height — payee choice irrelevant — is
    rejected without changing the registry; after the voter votes for a
    different height, the same height can be voted again (see the
    counterexample). -/
theorem C2_last_height_guard (env : Env) (s : CMasternodePayments)
    (w w2 : CMasternodePaymentWinner)
    (hacc : (CanVote env s w).2 = true)
    (hvoter : w2.vinMasternode = w.vinMasternode)
    (hheight : w2.nBlockHeight = w.nBlockHeight)
    (hphase : env.getPhase w2.vinPayee w2.nBlockHeight =
      env.getPhase w.vinPayee w.nBlockHeight) :
    CanVote env (CanVote env s w).1 w2 = ((CanVote env s w).1, false) := by
  have hkey : canVoteKey w2.vinMasternode
      (env.getPhase w2.vinPayee w2.nBlockHeight) =
      canVoteKey w.vinMasternode (env.getPhase w.vinPayee w.nBlockHeight) := by
    rw [hvoter, hphase]
  have hlast : (CanVote env s w).1.mapMasternodesLastVote =
      ainsert s.mapMasternodesLastVote
        (canVoteKey w.vinMasternode (env.getPhase w.vinPayee w.nBlockHeight))
        w.nBlockHeight := by
    unfold CanVote at hacc ⊢
    cases hl : alookup s.mapMasternodesLastVote
        (canVoteKey w.vinMasternode (env.getPhase w.vinPayee w.nBlockHeight)) with
    | none => simp [hl]
    | some h =>
        by_cases hh : h = w.nBlockHeight
        · simp [hl, hh] at hacc
        · simp [hl, hh]
  generalize hs1 : (CanVote env s w).1 = s1 at hlast ⊢
  unfold CanVote
  dsimp only
  rw [hkey, hlast, alookup_ainsert_self]
  dsimp only
  rw [if_pos hheight.symm]

/-- Witness for C2's amended theorem: after `v1W` is admitted by the
    guard on the empty registry, the identical-key vote `v3W` (same
    voter, phase and height, different payee) is rejected by the guard
    with no state change. -/
theorem C2_last_height_guard_w :
    CanVote envW (CanVote envW s0W v1W).1 v3W =
      ((CanVote envW s0W v1W).1, false) :=
  C2_last_height_guard envW s0W v1W v3W (by decide) rfl rfl rfl

/-- C4: for a vote passing every other admission check, the acceptance
    window of the `mnw` pipeline has exact boundaries: a vote at height
    `tip - int(1.25 × active_count) - 1` is rejected as out of window, a
    vote at `tip - int(1.25 × active_count)` is accepted, and any vote
    at height above `tip + 20` is rejected as out of window. -/
theorem C4_window_boundary (env : Env) (s : CMasternodePayments)
    (voter payeeRef : COutPoint) (ph : Nat) (hph : ph ≠ 0)
    (hvp : ∀ h : Int, env.getPhase voter h ≠ 0)
    (hpp : ∀ h : Int, env.getPhase payeeRef h = ph)
    (hseen : ∀ h : Int,
      alookup s.mapMasternodePayeeVotes
        (winnerGetHash ⟨voter, h, payeeRef⟩) = none)
    (hvalid : ∀ h : Int, env.isValidWinner ⟨voter, h, payeeRef⟩ = true)
    (hsig : ∀ h : Int, env.signatureValid ⟨voter, h, payeeRef⟩ = true)
    (hvote : ∀ k : Nat, alookup s.mapMasternodesLastVote k = none)
    (hbh : ∀ h : Int, env.hasBlockHash h = true) :
    ((processVote env s
        ⟨voter, env.tipHeight - windowFloor env ph - 1, payeeRef⟩).2
      = .rejected .outOfWindow) ∧
    ((processVote env s
        ⟨voter, env.tipHeight - windowFloor env ph, payeeRef⟩).2
      = .accepted) ∧
    (∀ hgt : Int, hgt > env.tipHeight + 20 →
      (processVote env s ⟨voter, hgt, payeeRef⟩).2 = .rejected .outOfWindow) := by
  have hf : (0 : Int) ≤ windowFloor env ph := Int.natCast_nonneg _
  refine ⟨?_, ?_, ?_⟩
  · have hwin : env.tipHeight - windowFloor env ph - 1 <
        env.tipHeight - windowFloor env ph ∨
        env.tipHeight - windowFloor env ph - 1 > env.tipHeight + 20 :=
      Or.inl (by omega)
    simp [processVote, hpp, hvp, hph, hseen, hwin]
  · have hwin : ¬(env.tipHeight - windowFloor env ph <
        env.tipHeight - windowFloor env ph ∨
        env.tipHeight - windowFloor env ph > env.tipHeight + 20) := by
      push_neg
      exact ⟨le_refl _, by omega⟩
    have h20 : ¬(env.tipHeight + 20 < env.tipHeight - windowFloor env ph) := by
      omega
    simp [processVote, CanVote, AddWinningMasternode, hpp, hvp, hph, hseen,
      hvote, hvalid, hsig, hbh, hwin, h20]
  · intro hgt hgtgt
    have hwin : hgt < env.tipHeight - windowFloor env ph ∨
        hgt > env.tipHeight + 20 := Or.inr hgtgt
    simp [processVote, hpp, hvp, hph, hseen, hwin]

/-- Witness for C4: with 8 enabled masternodes the window floor is 10;
    at tip 1000 a vote at height 989 is out of window, one at 990 is
    accepted and one at 1021 is out of window. -/
theorem C4_window_boundary_w :
    (processVote env4W s0W
        ⟨voterOW, env4W.tipHeight - windowFloor env4W 1 - 1, ⟨10, 0⟩⟩).2
      = .rejected .outOfWindow ∧
    (processVote env4W s0W
        ⟨voterOW, env4W.tipHeight - windowFloor env4W 1, ⟨10, 0⟩⟩).2
      = .accepted ∧
    (processVote env4W s0W ⟨voterOW, 1021, ⟨10, 0⟩⟩).2
      = .rejected .outOfWindow := by
  have h := C4_window_boundary env4W s0W voterOW ⟨10, 0⟩ 1 (by decide)
    (fun _ => Nat.one_ne_zero) (fun _ => rfl) (fun _ => rfl) (fun _ => rfl)
    (fun _ => rfl) (fun _ => rfl) (fun _ => rfl)
  exact ⟨h.1, h.2.1, h.2.2 1021 (by decide)⟩
end LENO
